import Mathlib

/-!
Shallow embedding of the Odoo MCP worker core:
the stateful RPC client (`src/odooClient.ts`), the request configuration
resolver (`src/index.ts` fetch handler), and the capability gate plus
resource handlers (`src/mcp.ts`).

Conventions of the embedding:
* JavaScript runtime values flowing through JSON-RPC are modelled by `JVal`.
* `null`/`undefined` are folded into `JVal.null` (the code only distinguishes
  them through the loose `!= null` check, which treats both alike).
* The network is a deterministic script: a list of pending responses consumed
  in order, together with a log of every envelope the client sent.
* Platform library functions (`JSON.parse`, `decodeURIComponent`) are passed
  in as oracle parameters; `parseInt` is modelled by `jsParseInt` below, with
  `none` standing for JavaScript's `NaN`.
-/

/-- JSON-ish runtime values (the payloads that cross the RPC boundary). -/
inductive JVal where
  | null : JVal
  | bool : Bool → JVal
  | num : Int → JVal
  | str : String → JVal
  | arr : List JVal → JVal
  | obj : List (String × JVal) → JVal

/-- A JavaScript number that may be `NaN` (`none` = `NaN`). -/
abbrev JSNum := Option Int

/-- The envelope data of one JSON-RPC POST (`jsonRpc` in `odooClient.ts`
builds `params: \x7bservice, method, args\x7d`; the `jsonrpc`/`id` fields are
fixed resp. opaque and not modelled). -/
structure Envelope where
  service : String
  method : String
  args : List JVal

/-- One scripted backend response to a JSON-RPC POST. -/
inductive RpcResp where
  | httpErr : Nat → String → RpcResp
  | rpcErr : Option String → RpcResp
  | ok : JVal → RpcResp

/-- Errors thrown by `jsonRpc` in `odooClient.ts`. -/
inductive RpcError where
  | http : Nat → String → RpcError
  | remote : String → RpcError
  | noResponse : RpcError

/-- Network state: the remaining scripted responses and the log of envelopes
sent so far. -/
structure NetState where
  pending : List RpcResp
  sent : List Envelope

/-- `OdooConfig` as the constructor receives it (`timeout?: number`): the
`timeout` field may be absent (`none`) or present with a possibly-NaN value. -/
structure OdooConfigIn where
  baseUrl : String
  db : String
  username : String
  password : String
  timeout : Option JSNum

/-- The effective configuration stored on the client after the constructor's
spread `\x7b timeout: 60000, ...cfg \x7d`. -/
structure OdooCfg where
  baseUrl : String
  db : String
  username : String
  password : String
  timeout : JSNum

/-- The `OdooClient` instance state: its stored config and the `uid` field,
initially `null`. -/
structure OdooClient where
  cfg : OdooCfg
  uid : JVal

/-- `new OdooClient(cfg)`: stores `\x7b timeout: 60000, ...cfg \x7d` and sets no
uid. A pure function of the config: it takes no network state at all, which
embeds "construction performs no backend contact". -/
def mkOdooClient (c : OdooConfigIn) : OdooClient :=
  { cfg := { baseUrl := c.baseUrl, db := c.db, username := c.username,
             password := c.password,
             timeout := c.timeout.getD (some 60000) },
    uid := JVal.null }

/-- The loose JavaScript check `this.uid != null`: true unless the value is
`null`/`undefined`. -/
def isSet : JVal → Bool
  | JVal.null => false
  | _ => true

/-- `jsonRpc(service, method, args)`: POSTs one envelope and consumes the next
scripted response. A non-ok HTTP status throws `HTTP <status>: <text>`; a
response with an `error` field throws `error.data?.message ?? "Odoo RPC
error"`; otherwise `data.result` is returned. An exhausted script models a
network failure (the fetch itself rejects); the envelope was still sent. -/
def jsonRpc (net : NetState) (service method : String) (args : List JVal) :
    NetState × Except RpcError JVal :=
  let env : Envelope := ⟨service, method, args⟩
  let net' : NetState := ⟨net.pending.tail, net.sent ++ [env]⟩
  match net.pending with
  | [] => (net', Except.error RpcError.noResponse)
  | RpcResp.httpErr st tx :: _ => (net', Except.error (RpcError.http st tx))
  | RpcResp.rpcErr msg :: _ =>
      (net', Except.error (RpcError.remote (msg.getD "Odoo RPC error")))
  | RpcResp.ok v :: _ => (net', Except.ok v)

/-- `login()`: returns at once when `this.uid != null`; otherwise sends the
login envelope and stores whatever result comes back into `uid`. On a thrown
error the assignment never runs and `uid` is unchanged. -/
def OdooClient.login (cl : OdooClient) (net : NetState) :
    OdooClient × NetState × Except RpcError Unit :=
  if isSet cl.uid then (cl, net, Except.ok ())
  else
    match jsonRpc net "common" "login"
        [JVal.str cl.cfg.db, JVal.str cl.cfg.username, JVal.str cl.cfg.password] with
    | (net', Except.ok v) => ({ cl with uid := v }, net', Except.ok ())
    | (net', Except.error e) => (cl, net', Except.error e)

/-- `executeKw(model, method, args, kwargs)`: awaits `login()` (propagating
its error), then sends the execution envelope using the possibly-updated
`uid`. -/
def OdooClient.executeKw (cl : OdooClient) (net : NetState)
    (model method : String) (args : List JVal) (kwargs : List (String × JVal)) :
    OdooClient × NetState × Except RpcError JVal :=
  match cl.login net with
  | (cl', net', Except.error e) => (cl', net', Except.error e)
  | (cl', net', Except.ok _) =>
      match jsonRpc net' "object" "execute_kw"
          [JVal.str cl'.cfg.db, cl'.uid, JVal.str cl'.cfg.password,
           JVal.str model, JVal.str method, JVal.arr args, JVal.obj kwargs] with
      | (net'', r) => (cl', net'', r)

/-- The timeout value `jsonRpc` hands to the transport
(`cf: \x7b timeout: this.cfg.timeout \x7d`). -/
def transportTimeout (cl : OdooClient) : JSNum := cl.cfg.timeout

/-- One `executeKw` invocation's arguments. -/
structure CallSpec where
  model : String
  method : String
  args : List JVal
  kwargs : List (String × JVal)

/-- Run a sequence of `executeKw` calls on the same client instance,
threading client and network state. -/
def runCalls (cl : OdooClient) (net : NetState) : List CallSpec → OdooClient × NetState
  | [] => (cl, net)
  | c :: cs =>
      match cl.executeKw net c.model c.method c.args c.kwargs with
      | (cl', net', _) => runCalls cl' net' cs

/-- Is this envelope a login envelope (`service:"common", method:"login"`)? -/
def isLoginEnv (e : Envelope) : Bool :=
  e.service == "common" && e.method == "login"

/-- How many login envelopes a log contains. -/
def loginCount (l : List Envelope) : Nat := (l.filter isLoginEnv).length

/-- The login envelope a client with config `c` sends. -/
def loginEnvelope (c : OdooCfg) : Envelope :=
  ⟨"common", "login", [JVal.str c.db, JVal.str c.username, JVal.str c.password]⟩

/-- JavaScript truthiness of a string-or-null value (`request.headers.get`
returns `null` for an absent header; `""` and `null` are both falsy). -/
def truthy : Option String → Bool
  | none => false
  | some s => !(s == "")

/-- `x || d` for a string-or-null `x` and a string default `d`. -/
def orDefault (x : Option String) (d : String) : String :=
  match x with
  | none => d
  | some s => if s == "" then d else s

/-- `s || d` for a plain string `s` (already non-null). -/
def strOr (s d : String) : String := if s == "" then d else s

/-- The shape check `Array.isArray(x) && x.every(t => typeof t === "string")`,
returning the string list when it passes. -/
def asStringList : JVal → Option (List String)
  | JVal.arr xs =>
      xs.foldr (fun v acc =>
        match v, acc with
        | JVal.str s, some l => some (s :: l)
        | _, _ => none) (some [])
  | _ => none

/-- The allow-list parsing logic, shared verbatim by the `to-use` header and
the `TO_USE` environment setting in `index.ts`: when the input is truthy,
`JSON.parse` it inside a try/catch, keep it only when it is an array of
strings, and otherwise (parse failure or wrong shape) fall back to `[]` with
a logged warning. `jparse` is the `JSON.parse` oracle (`Except.error` models a
thrown `SyntaxError`). -/
def parseAllowList (jparse : String → Except Unit JVal) (x : Option String) :
    List String :=
  if truthy x then
    match jparse (x.getD "") with
    | Except.error _ => []
    | Except.ok v => (asStringList v).getD []
  else []

/-- The configuration request headers read at the top of the fetch handler
(`none` = header absent). -/
structure Headers where
  odooUrl : Option String
  odooDb : Option String
  odooUser : Option String
  odooPass : Option String
  odooTimeout : Option String
  algoliaApiKey : Option String
  algoliaAppId : Option String
  algoliaIndexName : Option String
  laburenApiKey : Option String
  toUse : Option String

/-- The process-wide fallback settings (Cloudflare environment variables;
`none` = unset). -/
structure EnvVars where
  ODOO_URL : Option String
  ODOO_DB : Option String
  ODOO_USER : Option String
  ODOO_PASS : Option String
  ODOO_TIMEOUT : Option String
  ALGOLIA_API_KEY : Option String
  ALGOLIA_APP_ID : Option String
  ALGOLIA_INDEX_NAME : Option String
  LABUREN_API_KEY : Option String
  TO_USE : Option String

/-- The props bag the fetch handler injects into the execution context. In
the header branch the four mandatory fields are the (truthy) header strings
while the optional ones are raw possibly-null header values; in the env
branch every field is a string (possibly `""`). -/
structure CtxProps where
  odooUrl : String
  odooDb : String
  odooUser : String
  odooPass : String
  odooTimeout : String
  algoliaApiKey : Option String
  algoliaAppId : Option String
  algoliaIndexName : Option String
  laburenApiKey : Option String
  toolsToUse : List String

/-- The props computation of the fetch handler: parse both allow-lists, then
branch on `!odooUrl || !odooDb || !odooUser || !odooPass` between the
env-fallback bundle and the all-headers bundle. -/
def resolveProps (jparse : String → Except Unit JVal) (h : Headers)
    (env : EnvVars) : CtxProps :=
  let toolsToUse := parseAllowList jparse h.toUse
  let envToolsToUse := parseAllowList jparse env.TO_USE
  if !truthy h.odooUrl || !truthy h.odooDb || !truthy h.odooUser
      || !truthy h.odooPass then
    { odooUrl := orDefault env.ODOO_URL "https://tu-odoo-instance.com",
      odooDb := orDefault env.ODOO_DB "tu_database",
      odooUser := orDefault env.ODOO_USER "usuario@ejemplo.com",
      odooPass := orDefault env.ODOO_PASS "tu_password",
      odooTimeout := orDefault env.ODOO_TIMEOUT "60000",
      algoliaApiKey := some (orDefault env.ALGOLIA_API_KEY ""),
      algoliaAppId := some (orDefault env.ALGOLIA_APP_ID ""),
      algoliaIndexName := some (orDefault env.ALGOLIA_INDEX_NAME ""),
      laburenApiKey := some (orDefault env.LABUREN_API_KEY ""),
      toolsToUse := envToolsToUse }
  else
    { odooUrl := h.odooUrl.getD "",
      odooDb := h.odooDb.getD "",
      odooUser := h.odooUser.getD "",
      odooPass := h.odooPass.getD "",
      odooTimeout := orDefault h.odooTimeout "60000",
      algoliaApiKey := h.algoliaApiKey,
      algoliaAppId := h.algoliaAppId,
      algoliaIndexName := h.algoliaIndexName,
      laburenApiKey := h.laburenApiKey,
      toolsToUse := toolsToUse }

/-- All four mandatory backend headers truthy (present with non-empty
value). -/
def mandatoryOk (h : Headers) : Bool :=
  truthy h.odooUrl && truthy h.odooDb && truthy h.odooUser && truthy h.odooPass

/-- `parseInt(s, 10)`: skip leading spaces, read an optional sign and then a
leading run of decimal digits; no digits at all yields `NaN` (`none`). -/
def jsParseInt (s : String) : JSNum :=
  let t := s.toList.dropWhile (fun c => c == ' ')
  let signAndRest : Int × List Char :=
    match t with
    | '-' :: r => (-1, r)
    | '+' :: r => (1, r)
    | r => (1, r)
  let ds := signAndRest.2.takeWhile Char.isDigit
  if ds.isEmpty then none
  else some (signAndRest.1 *
    (ds.foldl (fun acc c => acc * 10 + (c.toNat - '0'.toNat)) 0 : Nat))

/-- The Algolia credential triple built by `getConfigFromContext`. -/
structure AlgoliaCfg where
  apiKey : String
  appId : String
  indexName : String

/-- What `getConfigFromContext` returns. -/
structure ContextConfig where
  odooConfig : OdooConfigIn
  algoliaConfig : AlgoliaCfg
  toolsToUse : List String
  laburenApiKey : String

/-- `getConfigFromContext()`: reads the props bag and assembles the Odoo
config (`timeout: parseInt(contextProps.odooTimeout || "60000", 10)` — note
the `timeout` field is always present on the object), the Algolia config,
the allow-list (`contextProps.toolsToUse || []`, and a non-null array is
always truthy) and the external API key. -/
def getConfigFromContext (p : CtxProps) : ContextConfig :=
  { odooConfig :=
      { baseUrl := strOr p.odooUrl "",
        db := strOr p.odooDb "",
        username := strOr p.odooUser "",
        password := strOr p.odooPass "",
        timeout := some (jsParseInt (strOr p.odooTimeout "60000")) },
    algoliaConfig :=
      { apiKey := orDefault p.algoliaApiKey "",
        appId := orDefault p.algoliaAppId "",
        indexName := orDefault p.algoliaIndexName "" },
    toolsToUse := p.toolsToUse,
    laburenApiKey := orDefault p.laburenApiKey "" }

/-- `shouldIgnoreTool(toolName)`: with an empty configured allow-list every
tool is available; otherwise only the listed names are. -/
def shouldIgnoreTool (p : CtxProps) (toolName : String) : Bool :=
  let toolsToUse := (getConfigFromContext p).toolsToUse
  if toolsToUse.length == 0 then false
  else !(toolsToUse.contains toolName)

/-- The tool names `init()` registers when the gate admits them, in
registration order. -/
def registeredTools (p : CtxProps) : List String :=
  (if !(shouldIgnoreTool p "search_product_by_reference_code")
    then ["search_product_by_reference_code"] else []) ++
  (if !(shouldIgnoreTool p "create_sale_order")
    then ["create_sale_order"] else [])

/-- `getOdooClient()`: builds a brand-new `OdooClient` from the current
context config (also overwriting the agent's stored client field). -/
def getOdooClient (p : CtxProps) : OdooClient :=
  mkOdooClient (getConfigFromContext p).odooConfig

/-- One tool-handler invocation: both registered tool handlers begin with
`const odoo = this.getOdooClient()` and then perform their `executeKw` calls
on that fresh client. The business logic between calls is irrelevant to the
session-identity claims, so the invocation is abstracted as the list of
client calls it performs. -/
def runToolInvocation (p : CtxProps) (net : NetState) (calls : List CallSpec) :
    OdooClient × NetState :=
  runCalls (getOdooClient p) net calls

/-- Errors a resource handler can surface: a propagated RPC error, a thrown
JavaScript `TypeError` (destructuring a non-iterable), or a thrown JSON
`SyntaxError` from the domain segment. -/
inductive HandlerError where
  | rpc : RpcError → HandlerError
  | jsTypeError : HandlerError
  | parseFailure : HandlerError

/-- The `record` resource handler:
`const [rec] = await this.odoo.executeKw(model, "read", [[Number(id)]]);
return rec ?? \x7b\x7d;`. The path has already been split and the id segment
converted by `Number` (platform plumbing). Array destructuring binds `rec`
to the first element (`undefined` when the list is empty), and the
`?? \x7b\x7d` fallback then replaces any NULLISH `rec`: an empty list and a
null first element both yield the empty object, while a non-null first
element is returned as is. A string result is iterable in JavaScript, so
destructuring yields its first character (or `undefined`, hence the empty
object, for the empty string). Destructuring any other non-iterable result
throws a `TypeError`. -/
def recordResource (cl : OdooClient) (net : NetState) (model : String)
    (id : Int) : OdooClient × NetState × Except HandlerError JVal :=
  match cl.executeKw net model "read" [JVal.arr [JVal.num id]] [] with
  | (cl', net', Except.error e) => (cl', net', Except.error (HandlerError.rpc e))
  | (cl', net', Except.ok (JVal.arr [])) => (cl', net', Except.ok (JVal.obj []))
  | (cl', net', Except.ok (JVal.arr (JVal.null :: _))) =>
      (cl', net', Except.ok (JVal.obj []))
  | (cl', net', Except.ok (JVal.arr (x :: _))) => (cl', net', Except.ok x)
  | (cl', net', Except.ok (JVal.str s)) =>
      match s.data with
      | [] => (cl', net', Except.ok (JVal.obj []))
      | c :: _ => (cl', net', Except.ok (JVal.str (String.mk [c])))
  | (cl', net', Except.ok _) => (cl', net', Except.error HandlerError.jsTypeError)

/-- The `search` resource handler:
`const domain = JSON.parse(decodeURIComponent(domainStr));
return this.odoo.executeKw(model, "search_read", [domain]);`.
`jparse`/`urlDecode` are the platform `JSON.parse`/`decodeURIComponent`
oracles; a parse failure throws out of the handler before any remote call. -/
def searchResource (jparse : String → Except Unit JVal)
    (urlDecode : String → String) (cl : OdooClient) (net : NetState)
    (model domainStr : String) :
    OdooClient × NetState × Except HandlerError JVal :=
  match jparse (urlDecode domainStr) with
  | Except.error _ => (cl, net, Except.error HandlerError.parseFailure)
  | Except.ok domain =>
      match cl.executeKw net model "search_read" [domain] [] with
      | (cl', net', Except.error e) =>
          (cl', net', Except.error (HandlerError.rpc e))
      | (cl', net', Except.ok v) => (cl', net', Except.ok v)

/-- A scripted response that models a thrown error (non-ok HTTP status or an
`error` payload). -/
def respErr : RpcResp → Bool
  | RpcResp.ok _ => false
  | _ => true

/-- A concrete props bag whose allow-list holds exactly one tool name. -/
def pGate : CtxProps :=
  { odooUrl := "https://x", odooDb := "d", odooUser := "u", odooPass := "p",
    odooTimeout := "60000", algoliaApiKey := none, algoliaAppId := none,
    algoliaIndexName := none, laburenApiKey := none,
    toolsToUse := ["search_product_by_reference_code"] }

/-- A concrete client config. -/
def cfg₀ : OdooConfigIn :=
  { baseUrl := "https://x", db := "d", username := "u", password := "p",
    timeout := some (some 60000) }

/-- A backend script whose login answer carries no identity: the backend
replies `result: false` (Odoo's answer to bad credentials), then answers the
following execution calls normally. -/
def net₀ : NetState :=
  ⟨[RpcResp.ok (JVal.bool false), RpcResp.ok (JVal.num 7),
    RpcResp.ok (JVal.num 8)], []⟩

/-- A `JSON.parse` oracle that always throws (no allow-list input is parsed
in the scenarios below). -/
def jparse₀ : String → Except Unit JVal := fun _ => Except.error ()

/-- Headers in which all four mandatory backend headers are present, but the
`odoo-url` one carries the empty string. -/
def hdr₀ : Headers :=
  { odooUrl := some "", odooDb := some "d", odooUser := some "u",
    odooPass := some "p", odooTimeout := none, algoliaApiKey := none,
    algoliaAppId := none, algoliaIndexName := none, laburenApiKey := none,
    toUse := none }

/-- Process-wide defaults distinct from the header values. -/
def env₀ : EnvVars :=
  { ODOO_URL := some "https://env.example", ODOO_DB := some "envdb",
    ODOO_USER := some "envuser", ODOO_PASS := some "envpass",
    ODOO_TIMEOUT := none, ALGOLIA_API_KEY := none, ALGOLIA_APP_ID := none,
    ALGOLIA_INDEX_NAME := none, LABUREN_API_KEY := none, TO_USE := none }

/-- Headers with all four mandatory values present and non-empty. -/
def hdrAll : Headers :=
  { odooUrl := some "https://x", odooDb := some "d", odooUser := some "u",
    odooPass := some "p", odooTimeout := none, algoliaApiKey := none,
    algoliaAppId := none, algoliaIndexName := none, laburenApiKey := none,
    toUse := none }

/-- A `JSON.parse` oracle returning a non-array value. -/
def jparse₁ : String → Except Unit JVal := fun _ => Except.ok (JVal.num 3)

/-- Headers carrying a malformed (non-array) allow-list header. -/
def hdrBad : Headers :=
  { odooUrl := some "https://x", odooDb := some "d", odooUser := some "u",
    odooPass := some "p", odooTimeout := none, algoliaApiKey := none,
    algoliaAppId := none, algoliaIndexName := none, laburenApiKey := none,
    toUse := some "3" }

/-- Environment carrying the same malformed allow-list setting. -/
def envBad : EnvVars :=
  { ODOO_URL := none, ODOO_DB := none, ODOO_USER := none, ODOO_PASS := none,
    ODOO_TIMEOUT := none, ALGOLIA_API_KEY := none, ALGOLIA_APP_ID := none,
    ALGOLIA_INDEX_NAME := none, LABUREN_API_KEY := none, TO_USE := some "3" }

/-- Headers with the four mandatory fields non-empty and no timeout header. -/
def hdr₁ : Headers :=
  { odooUrl := some "https://x", odooDb := some "d", odooUser := some "u",
    odooPass := some "p", odooTimeout := none, algoliaApiKey := none,
    algoliaAppId := none, algoliaIndexName := none, laburenApiKey := none,
    toUse := none }

/-- Environment with a parseable process-wide timeout setting. -/
def env₁ : EnvVars :=
  { ODOO_URL := none, ODOO_DB := none, ODOO_USER := none, ODOO_PASS := none,
    ODOO_TIMEOUT := some "5000", ALGOLIA_API_KEY := none,
    ALGOLIA_APP_ID := none, ALGOLIA_INDEX_NAME := none,
    LABUREN_API_KEY := none, TO_USE := none }

/-- A backend script answering login with uid 1, then `read` with an empty
result list. -/
def netRec : NetState :=
  ⟨[RpcResp.ok (JVal.num 1), RpcResp.ok (JVal.arr [])], []⟩

/-- A backend script answering login with uid 1, then `read` with the
non-empty result list `[null]`. -/
def netNull : NetState :=
  ⟨[RpcResp.ok (JVal.num 1), RpcResp.ok (JVal.arr [JVal.null])], []⟩

/-- A backend script answering login with uid 1, then `read` with one
non-null record. -/
def netFirst : NetState :=
  ⟨[RpcResp.ok (JVal.num 1), RpcResp.ok (JVal.arr [JVal.num 42])], []⟩

/-- A concrete decoded search domain `[["vat","=","X"]]`. -/
def D₀ : JVal := JVal.arr [JVal.arr [JVal.str "vat", JVal.str "=", JVal.str "X"]]

/-- A `JSON.parse` oracle that parses exactly the segment `"dom"` to `D₀`. -/
def jparse₂ : String → Except Unit JVal :=
  fun s => if s == "dom" then Except.ok D₀ else Except.error ()

/-- The identity `decodeURIComponent` oracle (already-decoded segments). -/
def urld₀ : String → String := fun s => s

/-- A client whose session identity is already established (uid 2). -/
def clS : OdooClient := { cfg := (mkOdooClient cfg₀).cfg, uid := JVal.num 2 }

/-- A backend script with one successful (empty) search result. -/
def netS : NetState := ⟨[RpcResp.ok (JVal.arr [])], []⟩

/-- A props bag whose timeout string has no leading digits. -/
def pNaN : CtxProps :=
  { odooUrl := "https://x", odooDb := "d", odooUser := "u", odooPass := "p",
    odooTimeout := "abc", algoliaApiKey := none, algoliaAppId := none,
    algoliaIndexName := none, laburenApiKey := none, toolsToUse := [] }

/-! ## Theorems -/

theorem loginCount_append (a b : List Envelope) :
    loginCount (a ++ b) = loginCount a + loginCount b := by
  simp [loginCount, List.filter_append]

theorem jsonRpc_sent (net : NetState) (s m : String) (args : List JVal) :
    (jsonRpc net s m args).1.sent = net.sent ++ [⟨s, m, args⟩] := by
  cases h : net.pending with
  | nil => simp [jsonRpc, h]
  | cons r rest => cases r <;> simp [jsonRpc, h]

theorem resolveProps_branch (h : Headers) :
    (!truthy h.odooUrl || !truthy h.odooDb || !truthy h.odooUser
      || !truthy h.odooPass) = !mandatoryOk h := by
  unfold mandatoryOk
  cases truthy h.odooUrl <;> cases truthy h.odooDb <;>
    cases truthy h.odooUser <;> cases truthy h.odooPass <;> rfl

theorem isSet_false {v : JVal} (h : isSet v = false) : v = JVal.null := by
  cases v <;> first | rfl | exact absurd h (by simp [isSet])

theorem runCalls_cons (cl : OdooClient) (net : NetState) (c : CallSpec)
    (cs : List CallSpec) :
    runCalls cl net (c :: cs) =
      runCalls (cl.executeKw net c.model c.method c.args c.kwargs).1
        (cl.executeKw net c.model c.method c.args c.kwargs).2.1 cs := by
  rcases hE : cl.executeKw net c.model c.method c.args c.kwargs with ⟨cl', net', r⟩
  simp [runCalls, hE]

theorem executeKw_isSet (cl : OdooClient) (net : NetState) (m mth : String)
    (a : List JVal) (k : List (String × JVal)) (h : isSet cl.uid = true) :
    (cl.executeKw net m mth a k).1 = cl ∧
    (cl.executeKw net m mth a k).2.1.sent =
      net.sent ++ [⟨"object", "execute_kw",
        [JVal.str cl.cfg.db, cl.uid, JVal.str cl.cfg.password,
         JVal.str m, JVal.str mth, JVal.arr a, JVal.obj k]⟩] := by
  cases hp : net.pending with
  | nil => simp [OdooClient.executeKw, OdooClient.login, h, jsonRpc, hp]
  | cons r rest =>
      cases r <;> simp [OdooClient.executeKw, OdooClient.login, h, jsonRpc, hp]

theorem executeKw_isSet_loginCount (cl : OdooClient) (net : NetState)
    (m mth : String) (a : List JVal) (k : List (String × JVal))
    (h : isSet cl.uid = true) :
    loginCount (cl.executeKw net m mth a k).2.1.sent = loginCount net.sent := by
  rw [(executeKw_isSet cl net m mth a k h).2, loginCount_append]
  rfl

theorem runCalls_isSet (cs : List CallSpec) (cl : OdooClient) (net : NetState)
    (h : isSet cl.uid = true) :
    (runCalls cl net cs).1 = cl ∧
    loginCount (runCalls cl net cs).2.sent = loginCount net.sent := by
  induction cs generalizing cl net with
  | nil => exact ⟨rfl, rfl⟩
  | cons c cs ih =>
      rw [runCalls_cons]
      obtain ⟨h1, _⟩ := executeKw_isSet cl net c.model c.method c.args c.kwargs h
      have hC := executeKw_isSet_loginCount cl net c.model c.method c.args c.kwargs h
      obtain ⟨ih1, ih2⟩ := ih (cl.executeKw net c.model c.method c.args c.kwargs).1
        (cl.executeKw net c.model c.method c.args c.kwargs).2.1 (by rw [h1]; exact h)
      refine ⟨by rw [ih1, h1], by rw [ih2, hC]⟩

theorem loginCount_cons (e : Envelope) (l : List Envelope) :
    loginCount (e :: l) = (if isLoginEnv e then 1 else 0) + loginCount l := by
  cases hE : isLoginEnv e <;> simp [loginCount, List.filter_cons, hE]
  omega

theorem executeKw_null_sent (cl : OdooClient) (net : NetState) (m mth : String)
    (a : List JVal) (k : List (String × JVal)) (h : cl.uid = JVal.null) :
    ∃ d, (cl.executeKw net m mth a k).2.1.sent
        = net.sent ++ loginEnvelope cl.cfg :: d ∧ loginCount d = 0 := by
  have hset : isSet cl.uid = false := by rw [h]; rfl
  cases hp : net.pending with
  | nil =>
      exact ⟨[], by
        simp [OdooClient.executeKw, OdooClient.login, hset, jsonRpc, hp,
          loginEnvelope], rfl⟩
  | cons r rest =>
      cases r with
      | httpErr st tx =>
          exact ⟨[], by
            simp [OdooClient.executeKw, OdooClient.login, hset, jsonRpc, hp,
              loginEnvelope], rfl⟩
      | rpcErr msg =>
          exact ⟨[], by
            simp [OdooClient.executeKw, OdooClient.login, hset, jsonRpc, hp,
              loginEnvelope], rfl⟩
      | ok v =>
          refine ⟨[⟨"object", "execute_kw",
            [JVal.str cl.cfg.db, v, JVal.str cl.cfg.password, JVal.str m,
             JVal.str mth, JVal.arr a, JVal.obj k]⟩], ?_, rfl⟩
          cases rest with
          | nil =>
              simp [OdooClient.executeKw, OdooClient.login, hset, jsonRpc, hp,
                loginEnvelope]
          | cons r2 rest2 =>
              cases r2 <;>
                simp [OdooClient.executeKw, OdooClient.login, hset, jsonRpc, hp,
                  loginEnvelope]

theorem executeKw_null_loginCount (cl : OdooClient) (net : NetState)
    (m mth : String) (a : List JVal) (k : List (String × JVal))
    (h : cl.uid = JVal.null) :
    loginCount (cl.executeKw net m mth a k).2.1.sent = loginCount net.sent + 1 := by
  obtain ⟨d, hs, hd⟩ := executeKw_null_sent cl net m mth a k h
  have hl : isLoginEnv (loginEnvelope cl.cfg) = true := rfl
  rw [hs, loginCount_append, loginCount_cons, hl, hd]
  simp

theorem executeKw_first_login (cl : OdooClient) (h : cl.uid = JVal.null)
    (v : JVal) (rest : List RpcResp) (sent₀ : List Envelope) (m mth : String)
    (a : List JVal) (k : List (String × JVal)) :
    (cl.executeKw ⟨RpcResp.ok v :: rest, sent₀⟩ m mth a k).1 = { cl with uid := v } ∧
    (cl.executeKw ⟨RpcResp.ok v :: rest, sent₀⟩ m mth a k).2.1.sent
      = sent₀ ++ [loginEnvelope cl.cfg,
          ⟨"object", "execute_kw",
            [JVal.str cl.cfg.db, v, JVal.str cl.cfg.password, JVal.str m,
             JVal.str mth, JVal.arr a, JVal.obj k]⟩] := by
  have hset : isSet cl.uid = false := by rw [h]; rfl
  cases rest with
  | nil =>
      constructor <;>
        simp [OdooClient.executeKw, OdooClient.login, hset, jsonRpc, loginEnvelope]
  | cons r2 rest2 =>
      cases r2 <;> constructor <;>
        simp [OdooClient.executeKw, OdooClient.login, hset, jsonRpc, loginEnvelope]

theorem executeKw_sent_mono (cl : OdooClient) (net : NetState) (m mth : String)
    (a : List JVal) (k : List (String × JVal)) :
    ∃ d, (cl.executeKw net m mth a k).2.1.sent = net.sent ++ d := by
  cases hset : isSet cl.uid with
  | true =>
      exact ⟨_, (executeKw_isSet cl net m mth a k hset).2⟩
  | false =>
      obtain ⟨d, hs, _⟩ := executeKw_null_sent cl net m mth a k (isSet_false hset)
      exact ⟨loginEnvelope cl.cfg :: d, hs⟩

theorem runCalls_sent_mono (cs : List CallSpec) (cl : OdooClient) (net : NetState) :
    ∃ d, (runCalls cl net cs).2.sent = net.sent ++ d := by
  induction cs generalizing cl net with
  | nil => exact ⟨[], by simp [runCalls]⟩
  | cons c cs ih =>
      rw [runCalls_cons]
      obtain ⟨d1, hd1⟩ := executeKw_sent_mono cl net c.model c.method c.args c.kwargs
      obtain ⟨d2, hd2⟩ := ih (cl.executeKw net c.model c.method c.args c.kwargs).1
        (cl.executeKw net c.model c.method c.args c.kwargs).2.1
      exact ⟨d1 ++ d2, by rw [hd2, hd1, List.append_assoc]⟩

/-- The resolver, rephrased as one branch on `mandatoryOk` (the code's
condition `!odooUrl || !odooDb || !odooUser || !odooPass` is its negation). -/
theorem resolveProps_eq (jparse : String → Except Unit JVal) (h : Headers)
    (env : EnvVars) :
    resolveProps jparse h env =
      if mandatoryOk h then
        { odooUrl := h.odooUrl.getD "",
          odooDb := h.odooDb.getD "",
          odooUser := h.odooUser.getD "",
          odooPass := h.odooPass.getD "",
          odooTimeout := orDefault h.odooTimeout "60000",
          algoliaApiKey := h.algoliaApiKey,
          algoliaAppId := h.algoliaAppId,
          algoliaIndexName := h.algoliaIndexName,
          laburenApiKey := h.laburenApiKey,
          toolsToUse := parseAllowList jparse h.toUse }
      else
        { odooUrl := orDefault env.ODOO_URL "https://tu-odoo-instance.com",
          odooDb := orDefault env.ODOO_DB "tu_database",
          odooUser := orDefault env.ODOO_USER "usuario@ejemplo.com",
          odooPass := orDefault env.ODOO_PASS "tu_password",
          odooTimeout := orDefault env.ODOO_TIMEOUT "60000",
          algoliaApiKey := some (orDefault env.ALGOLIA_API_KEY ""),
          algoliaAppId := some (orDefault env.ALGOLIA_APP_ID ""),
          algoliaIndexName := some (orDefault env.ALGOLIA_INDEX_NAME ""),
          laburenApiKey := some (orDefault env.LABUREN_API_KEY ""),
          toolsToUse := parseAllowList jparse env.TO_USE } := by
  unfold resolveProps
  rw [show (!truthy h.odooUrl || !truthy h.odooDb || !truthy h.odooUser
      || !truthy h.odooPass) = !mandatoryOk h from resolveProps_branch h]
  cases mandatoryOk h <;> simp

theorem parseAllowList_malformed (jparse : String → Except Unit JVal)
    (x : Option String)
    (hx : ∀ s v, x = some s → jparse s = Except.ok v → asStringList v = none) :
    parseAllowList jparse x = [] := by
  cases x with
  | none => rfl
  | some s =>
      unfold parseAllowList
      cases hT : truthy (some s) with
      | false => simp
      | true =>
          simp only [hT, if_true]
          cases hj : jparse s with
          | error e => simp [hj]
          | ok v => simp [hj, hx s v rfl hj]

theorem recordResource_state (cl : OdooClient) (net : NetState) (model : String)
    (id : Int) :
    (recordResource cl net model id).1 =
      (cl.executeKw net model "read" [JVal.arr [JVal.num id]] []).1 ∧
    (recordResource cl net model id).2.1 =
      (cl.executeKw net model "read" [JVal.arr [JVal.num id]] []).2.1 := by
  unfold recordResource
  rcases hE : cl.executeKw net model "read" [JVal.arr [JVal.num id]] []
    with ⟨cl', net', res⟩
  rcases res with e | v
  · exact ⟨rfl, rfl⟩
  · rcases v with _ | b | n | s | xs | fs
    · exact ⟨rfl, rfl⟩
    · exact ⟨rfl, rfl⟩
    · exact ⟨rfl, rfl⟩
    · rcases s with ⟨cs⟩
      rcases cs with _ | ⟨c, cs⟩
      · exact ⟨rfl, rfl⟩
      · exact ⟨rfl, rfl⟩
    · rcases xs with _ | ⟨x, xs⟩
      · exact ⟨rfl, rfl⟩
      · rcases x with _ | b | n | st | ys | fs <;> exact ⟨rfl, rfl⟩
    · exact ⟨rfl, rfl⟩

/-- C1: the Capability Gate (`shouldIgnoreTool`) admits an operation name `n`
iff the configured allow-list is empty or contains `n`, and a name it does
not admit is never registered by `init()`. -/
theorem c1_capability_gate (p : CtxProps) (n : String) :
    (shouldIgnoreTool p n = false ↔
      ((getConfigFromContext p).toolsToUse = [] ∨
        n ∈ (getConfigFromContext p).toolsToUse)) ∧
    (shouldIgnoreTool p n = true → n ∉ registeredTools p) := by
  constructor
  · unfold shouldIgnoreTool
    cases hT : (getConfigFromContext p).toolsToUse with
    | nil => simp
    | cons t ts => simp [hT]; tauto
  · intro hI hmem
    unfold registeredTools at hmem
    rcases List.mem_append.mp hmem with hm | hm
    · cases hg : shouldIgnoreTool p "search_product_by_reference_code" with
      | true => rw [hg] at hm; simp at hm
      | false =>
          rw [hg] at hm; simp at hm
          rw [hm] at hI
          exact Bool.noConfusion (hg.symm.trans hI)
    · cases hg : shouldIgnoreTool p "create_sale_order" with
      | true => rw [hg] at hm; simp at hm
      | false =>
          rw [hg] at hm; simp at hm
          rw [hm] at hI
          exact Bool.noConfusion (hg.symm.trans hI)

/-- C1 witness: with allow-list `["search_product_by_reference_code"]` the
gate rejects `create_sale_order` and that tool is not registered. -/
theorem c1_witness : "create_sale_order" ∉ registeredTools pGate :=
  (c1_capability_gate pGate "create_sale_order").2 (by rfl)

/-- C2: a freshly constructed client holds no session identity, and for any
sequence of calls on the same instance whose first call's login returns an
identity `v` (a non-null value), exactly one login envelope is ever sent:
every later `executeKw` reuses the stored identity (the final client still
holds `v`). Construction itself is a pure function of the config —
`mkOdooClient` takes no network state, so it can contact no backend. -/
theorem c2_lazy_client_single_login (cfgIn : OdooConfigIn) (v : JVal)
    (hv : isSet v = true) (rest : List RpcResp) (c : CallSpec)
    (calls : List CallSpec) :
    (mkOdooClient cfgIn).uid = JVal.null ∧
    loginCount ((runCalls (mkOdooClient cfgIn) ⟨RpcResp.ok v :: rest, []⟩
      (c :: calls)).2.sent) = 1 ∧
    (runCalls (mkOdooClient cfgIn) ⟨RpcResp.ok v :: rest, []⟩
      (c :: calls)).1.uid = v := by
  have h0 : (mkOdooClient cfgIn).uid = JVal.null := rfl
  obtain ⟨h1, h2⟩ := executeKw_first_login (mkOdooClient cfgIn) h0 v rest []
    c.model c.method c.args c.kwargs
  have huid : ((mkOdooClient cfgIn).executeKw ⟨RpcResp.ok v :: rest, []⟩
      c.model c.method c.args c.kwargs).1.uid = v := by rw [h1]
  have hset : isSet ((mkOdooClient cfgIn).executeKw ⟨RpcResp.ok v :: rest, []⟩
      c.model c.method c.args c.kwargs).1.uid = true := by rw [huid]; exact hv
  obtain ⟨hA, hB⟩ := runCalls_isSet calls _ _ hset
  refine ⟨rfl, ?_, ?_⟩
  · rw [runCalls_cons, hB, h2]
    rfl
  · rw [runCalls_cons, hA, huid]

/-- C2 witness: a concrete three-call run in which the login answer is uid 5
sends exactly one login envelope and keeps uid 5. -/
theorem c2_witness :
    (mkOdooClient cfg₀).uid = JVal.null ∧
    loginCount ((runCalls (mkOdooClient cfg₀)
      ⟨[RpcResp.ok (JVal.num 5), RpcResp.ok (JVal.arr []),
        RpcResp.ok (JVal.num 1), RpcResp.ok (JVal.num 2)], []⟩
      [⟨"res.partner", "search_read", [], []⟩,
       ⟨"sale.order", "create", [], []⟩,
       ⟨"sale.order.line", "create", [], []⟩]).2.sent) = 1 ∧
    (runCalls (mkOdooClient cfg₀)
      ⟨[RpcResp.ok (JVal.num 5), RpcResp.ok (JVal.arr []),
        RpcResp.ok (JVal.num 1), RpcResp.ok (JVal.num 2)], []⟩
      [⟨"res.partner", "search_read", [], []⟩,
       ⟨"sale.order", "create", [], []⟩,
       ⟨"sale.order.line", "create", [], []⟩]).1.uid = JVal.num 5 :=
  c2_lazy_client_single_login cfg₀ (JVal.num 5) (by rfl)
    [RpcResp.ok (JVal.arr []), RpcResp.ok (JVal.num 1), RpcResp.ok (JVal.num 2)]
    ⟨"res.partner", "search_read", [], []⟩
    [⟨"sale.order", "create", [], []⟩, ⟨"sale.order.line", "create", [], []⟩]

/-- C3 counterexample: when the login step returns no identity (`false`),
the claim says the call fails with an Authentication error, nothing is
cached, and the next call logs in again. On the code: the first call
SUCCEEDS (it proceeds to `execute_kw` and returns its result `7`), the
falsy non-null value IS cached into `uid`, and across this call and the
next one only one login envelope is ever sent — the next call does not
attempt login. -/
theorem c3_counterexample :
    ((mkOdooClient cfg₀).executeKw net₀ "res.partner" "search_read" [] []).2.2
      = Except.ok (JVal.num 7) ∧
    isSet ((mkOdooClient cfg₀).executeKw net₀
      "res.partner" "search_read" [] []).1.uid = true ∧
    loginCount ((((mkOdooClient cfg₀).executeKw net₀
        "res.partner" "search_read" [] []).1.executeKw
      ((mkOdooClient cfg₀).executeKw net₀ "res.partner" "search_read" [] []).2.1
      "res.partner" "read" [] []).2.1.sent) = 1 :=
  ⟨rfl, rfl, rfl⟩

/-- C3 (amended): for every call on a client with unset session identity, if
the login RPC *throws* (non-ok HTTP status or an error payload), the call
fails with that error, no identity is cached (`uid` stays null), and the next
call on the same instance attempts login again (it sends exactly one more
login envelope). A login response that merely carries no identity is not
treated as a failure by the code — see `c3_counterexample`. -/
theorem c3_login_throw_retries (cl : OdooClient) (net : NetState)
    (m mth : String) (a : List JVal) (k : List (String × JVal))
    (h : cl.uid = JVal.null) (r : RpcResp) (rest : List RpcResp)
    (hp : net.pending = r :: rest) (hr : respErr r = true) :
    (∃ e, (cl.executeKw net m mth a k).2.2 = Except.error e) ∧
    (cl.executeKw net m mth a k).1.uid = JVal.null ∧
    (∀ (net₂ : NetState) (m₂ mth₂ : String) (a₂ : List JVal)
        (k₂ : List (String × JVal)),
      loginCount (((cl.executeKw net m mth a k).1.executeKw
          net₂ m₂ mth₂ a₂ k₂).2.1.sent)
        = loginCount net₂.sent + 1) := by
  have hset : isSet cl.uid = false := by rw [h]; rfl
  have hfst : (cl.executeKw net m mth a k).1 = cl := by
    cases r with
    | ok v => exact absurd hr (by simp [respErr])
    | httpErr st tx =>
        simp [OdooClient.executeKw, OdooClient.login, hset, jsonRpc, hp]
    | rpcErr msg =>
        simp [OdooClient.executeKw, OdooClient.login, hset, jsonRpc, hp]
  refine ⟨?_, by rw [hfst]; exact h, ?_⟩
  · cases r with
    | ok v => exact absurd hr (by simp [respErr])
    | httpErr st tx =>
        exact ⟨RpcError.http st tx, by
          simp [OdooClient.executeKw, OdooClient.login, hset, jsonRpc, hp]⟩
    | rpcErr msg =>
        exact ⟨RpcError.remote (msg.getD "Odoo RPC error"), by
          simp [OdooClient.executeKw, OdooClient.login, hset, jsonRpc, hp]⟩
  · intro net₂ m₂ mth₂ a₂ k₂
    apply executeKw_null_loginCount
    rw [hfst]; exact h

/-- C3 witness: a concrete failed login (HTTP 500): the call errors, uid
stays null, and a following call sends one more login envelope. -/
theorem c3_witness :
    (∃ e, ((mkOdooClient cfg₀).executeKw
      ⟨[RpcResp.httpErr 500 "Internal Server Error"], []⟩
      "res.partner" "search_read" [] []).2.2 = Except.error e) ∧
    ((mkOdooClient cfg₀).executeKw
      ⟨[RpcResp.httpErr 500 "Internal Server Error"], []⟩
      "res.partner" "search_read" [] []).1.uid = JVal.null ∧
    loginCount ((((mkOdooClient cfg₀).executeKw
        ⟨[RpcResp.httpErr 500 "Internal Server Error"], []⟩
        "res.partner" "search_read" [] []).1.executeKw
      ⟨[RpcResp.ok (JVal.num 9), RpcResp.ok (JVal.num 7)], []⟩
      "res.partner" "read" [] []).2.1.sent) = 0 + 1 := by
  obtain ⟨h1, h2, h3⟩ := c3_login_throw_retries (mkOdooClient cfg₀)
    ⟨[RpcResp.httpErr 500 "Internal Server Error"], []⟩
    "res.partner" "search_read" [] [] rfl
    (RpcResp.httpErr 500 "Internal Server Error") [] rfl rfl
  exact ⟨h1, h2, h3 ⟨[RpcResp.ok (JVal.num 9), RpcResp.ok (JVal.num 7)], []⟩
    "res.partner" "read" [] []⟩

/-- C4 counterexample: all four mandatory backend headers are PRESENT (the
`odoo-url` one with an empty value), yet the resolved bundle's `odooDb` is
the process default `"envdb"`, not the header value `"d"`: JavaScript
truthiness makes a present-but-empty header count as missing, so the claim's
"present" hypothesis is not sufficient. -/
theorem c4_counterexample :
    (hdr₀.odooUrl.isSome = true ∧ hdr₀.odooDb.isSome = true ∧
      hdr₀.odooUser.isSome = true ∧ hdr₀.odooPass.isSome = true) ∧
    (resolveProps jparse₀ hdr₀ env₀).odooDb = "envdb" ∧
    ¬("envdb" = "d") :=
  ⟨⟨rfl, rfl, rfl, rfl⟩, rfl, by decide⟩

/-- C4 (amended): when all four mandatory backend headers are present with
NON-EMPTY values, the resolved bundle's backend fields equal the header
values exactly (process defaults ignored); when any of the four is absent —
or, as the counterexample forces, present but empty — the backend fields
equal the values derived from the process-wide defaults alone, a function of
the environment only (every partially-present header ignored). The two
branches never merge headers with defaults for the mandatory fields. -/
theorem c4_all_headers_or_all_defaults (jparse : String → Except Unit JVal)
    (h : Headers) (env : EnvVars) :
    (∀ u d us pw, h.odooUrl = some u → u ≠ "" → h.odooDb = some d → d ≠ "" →
      h.odooUser = some us → us ≠ "" → h.odooPass = some pw → pw ≠ "" →
      ((resolveProps jparse h env).odooUrl = u ∧
       (resolveProps jparse h env).odooDb = d ∧
       (resolveProps jparse h env).odooUser = us ∧
       (resolveProps jparse h env).odooPass = pw)) ∧
    (mandatoryOk h = false →
      ((resolveProps jparse h env).odooUrl
          = orDefault env.ODOO_URL "https://tu-odoo-instance.com" ∧
       (resolveProps jparse h env).odooDb = orDefault env.ODOO_DB "tu_database" ∧
       (resolveProps jparse h env).odooUser
          = orDefault env.ODOO_USER "usuario@ejemplo.com" ∧
       (resolveProps jparse h env).odooPass
          = orDefault env.ODOO_PASS "tu_password")) := by
  constructor
  · intro u d us pw hu hu' hd hd' hus hus' hpw hpw'
    have hM : mandatoryOk h = true := by
      unfold mandatoryOk
      rw [hu, hd, hus, hpw]
      simp [truthy, hu', hd', hus', hpw']
    rw [resolveProps_eq, hM]
    simp [hu, hd, hus, hpw]
  · intro hM
    rw [resolveProps_eq, hM]
    simp

/-- C4 witness: with all four headers non-empty the bundle equals the header
values even though process defaults are set; with `hdr₀` (empty url header)
the bundle equals the env-derived values. -/
theorem c4_witness :
    ((resolveProps jparse₀ hdrAll env₀).odooUrl = "https://x" ∧
     (resolveProps jparse₀ hdrAll env₀).odooDb = "d" ∧
     (resolveProps jparse₀ hdrAll env₀).odooUser = "u" ∧
     (resolveProps jparse₀ hdrAll env₀).odooPass = "p") ∧
    ((resolveProps jparse₀ hdr₀ env₀).odooUrl
        = orDefault env₀.ODOO_URL "https://tu-odoo-instance.com" ∧
     (resolveProps jparse₀ hdr₀ env₀).odooDb = orDefault env₀.ODOO_DB "tu_database" ∧
     (resolveProps jparse₀ hdr₀ env₀).odooUser
        = orDefault env₀.ODOO_USER "usuario@ejemplo.com" ∧
     (resolveProps jparse₀ hdr₀ env₀).odooPass
        = orDefault env₀.ODOO_PASS "tu_password") :=
  ⟨(c4_all_headers_or_all_defaults jparse₀ hdrAll env₀).1 "https://x" "d" "u" "p"
      rfl (by decide) rfl (by decide) rfl (by decide) rfl (by decide),
   (c4_all_headers_or_all_defaults jparse₀ hdr₀ env₀).2 (by rfl)⟩

/-- C5: for every allow-list input (the `to-use` header or the `TO_USE`
setting) that is malformed — `JSON.parse` throws, or succeeds but the value
is not an array of strings — the resolver (a total function: it never
throws) yields an empty `toolsToUse` for the resolved bundle, whichever
branch produced it. The hypotheses say exactly that every successful parse
of the corresponding input has the wrong shape. -/
theorem c5_malformed_allowlist_is_open (jparse : String → Except Unit JVal)
    (h : Headers) (env : EnvVars)
    (hh : ∀ s v, h.toUse = some s → jparse s = Except.ok v → asStringList v = none)
    (he : ∀ s v, env.TO_USE = some s → jparse s = Except.ok v →
      asStringList v = none) :
    (resolveProps jparse h env).toolsToUse = [] ∧
    parseAllowList jparse h.toUse = [] ∧
    parseAllowList jparse env.TO_USE = [] := by
  have h1 := parseAllowList_malformed jparse h.toUse hh
  have h2 := parseAllowList_malformed jparse env.TO_USE he
  refine ⟨?_, h1, h2⟩
  rw [resolveProps_eq]
  cases mandatoryOk h <;> simp [h1, h2]

/-- C5 witness: the JSON value `3` is not an array of strings, so both
allow-list inputs resolve to the empty (open) allow-list. -/
theorem c5_witness :
    (resolveProps jparse₁ hdrBad envBad).toolsToUse = [] ∧
    parseAllowList jparse₁ hdrBad.toUse = [] ∧
    parseAllowList jparse₁ envBad.TO_USE = [] := by
  apply c5_malformed_allowlist_is_open
  · intro s v _ hv
    have : JVal.num 3 = v := by simpa [jparse₁] using hv
    rw [← this]
    rfl
  · intro s v _ hv
    have : JVal.num 3 = v := by simpa [jparse₁] using hv
    rw [← this]
    rfl

/-- C6 counterexample: mandatory fields come from headers, the timeout header
is absent and the process default `ODOO_TIMEOUT = "5000"` is set. The claim
says the timeout then resolves to the process default (5000); the code
resolves it to the fixed literal 60000, never consulting the process
default in the header branch. -/
theorem c6_counterexample :
    hdr₁.odooTimeout = none ∧ env₁.ODOO_TIMEOUT = some "5000" ∧
    (getConfigFromContext (resolveProps jparse₀ hdr₁ env₁)).odooConfig.timeout
      = some (some 60000) ∧
    ¬((some (some 60000) : Option JSNum) = some (some 5000)) :=
  ⟨rfl, rfl, rfl, by decide⟩

/-- C6 (amended): the timeout and each optional field (Algolia credentials,
external API key) are resolved individually, but only WITHIN the branch that
supplied the mandatory backend fields: in the all-headers branch each is
header value else fixed literal (`"60000"` resp. null — process defaults
are never consulted), and in the all-defaults branch each is process
default else fixed literal (headers are never consulted). The claim's
header-else-default-else-literal chain does not occur. -/
theorem c6_optional_fields_branch_local (jparse : String → Except Unit JVal)
    (h : Headers) (env : EnvVars) :
    (mandatoryOk h = true →
      ((resolveProps jparse h env).odooTimeout = orDefault h.odooTimeout "60000" ∧
       (resolveProps jparse h env).algoliaApiKey = h.algoliaApiKey ∧
       (resolveProps jparse h env).algoliaAppId = h.algoliaAppId ∧
       (resolveProps jparse h env).algoliaIndexName = h.algoliaIndexName ∧
       (resolveProps jparse h env).laburenApiKey = h.laburenApiKey)) ∧
    (mandatoryOk h = false →
      ((resolveProps jparse h env).odooTimeout
          = orDefault env.ODOO_TIMEOUT "60000" ∧
       (resolveProps jparse h env).algoliaApiKey
          = some (orDefault env.ALGOLIA_API_KEY "") ∧
       (resolveProps jparse h env).algoliaAppId
          = some (orDefault env.ALGOLIA_APP_ID "") ∧
       (resolveProps jparse h env).algoliaIndexName
          = some (orDefault env.ALGOLIA_INDEX_NAME "") ∧
       (resolveProps jparse h env).laburenApiKey
          = some (orDefault env.LABUREN_API_KEY ""))) := by
  constructor
  · intro hM
    rw [resolveProps_eq, hM]
    simp
  · intro hM
    rw [resolveProps_eq, hM]
    simp

/-- C6 witness: both branches exercised at the concrete inputs of the
counterexample scenario. -/
theorem c6_witness :
    ((resolveProps jparse₀ hdr₁ env₁).odooTimeout
        = orDefault hdr₁.odooTimeout "60000" ∧
     (resolveProps jparse₀ hdr₁ env₁).algoliaApiKey = hdr₁.algoliaApiKey ∧
     (resolveProps jparse₀ hdr₁ env₁).algoliaAppId = hdr₁.algoliaAppId ∧
     (resolveProps jparse₀ hdr₁ env₁).algoliaIndexName = hdr₁.algoliaIndexName ∧
     (resolveProps jparse₀ hdr₁ env₁).laburenApiKey = hdr₁.laburenApiKey) ∧
    ((resolveProps jparse₀ hdr₀ env₁).odooTimeout
        = orDefault env₁.ODOO_TIMEOUT "60000" ∧
     (resolveProps jparse₀ hdr₀ env₁).algoliaApiKey
        = some (orDefault env₁.ALGOLIA_API_KEY "") ∧
     (resolveProps jparse₀ hdr₀ env₁).algoliaAppId
        = some (orDefault env₁.ALGOLIA_APP_ID "") ∧
     (resolveProps jparse₀ hdr₀ env₁).algoliaIndexName
        = some (orDefault env₁.ALGOLIA_INDEX_NAME "") ∧
     (resolveProps jparse₀ hdr₀ env₁).laburenApiKey
        = some (orDefault env₁.LABUREN_API_KEY "")) :=
  ⟨(c6_optional_fields_branch_local jparse₀ hdr₁ env₁).1 (by rfl),
   (c6_optional_fields_branch_local jparse₀ hdr₀ env₁).2 (by rfl)⟩

/-- C7 counterexample: the `read` call returns the NON-EMPTY list `[null]`,
whose first element is `null`. The claim says the first element is then
returned; but `rec ?? \x7b\x7d` applies its fallback to any nullish
destructured head, so the handler returns the empty structure, which is not
that first element. -/
theorem c7_counterexample :
    ((mkOdooClient cfg₀).executeKw netNull "res.partner" "read"
        [JVal.arr [JVal.num 424242]] []).2.2
      = Except.ok (JVal.arr [JVal.null]) ∧
    (recordResource (mkOdooClient cfg₀) netNull "res.partner" 424242).2.2
      = Except.ok (JVal.obj []) ∧
    ¬(JVal.obj [] = JVal.null) :=
  ⟨rfl, rfl, fun h => JVal.noConfusion h⟩

/-- C7 (amended): when the remote `read` call of the `record(model, id)`
resource returns the empty list, the handler answers with the empty
structure — never an error; when it returns a non-empty list whose first
element is non-null, that first element is returned; a null first element
also yields the empty structure, because the `?? \x7b\x7d` fallback applies
to any nullish destructured head (see `c7_counterexample`). -/
theorem c7_record_absent_is_empty (cl : OdooClient) (net : NetState)
    (model : String) (id : Int) :
    ((cl.executeKw net model "read" [JVal.arr [JVal.num id]] []).2.2
        = Except.ok (JVal.arr []) →
      (recordResource cl net model id).2.2 = Except.ok (JVal.obj [])) ∧
    (∀ xs, (cl.executeKw net model "read" [JVal.arr [JVal.num id]] []).2.2
        = Except.ok (JVal.arr (JVal.null :: xs)) →
      (recordResource cl net model id).2.2 = Except.ok (JVal.obj [])) ∧
    (∀ x xs, (cl.executeKw net model "read" [JVal.arr [JVal.num id]] []).2.2
        = Except.ok (JVal.arr (x :: xs)) → ¬(x = JVal.null) →
      (recordResource cl net model id).2.2 = Except.ok x) := by
  refine ⟨?_, ?_, ?_⟩
  · intro hE
    unfold recordResource
    rcases hC : cl.executeKw net model "read" [JVal.arr [JVal.num id]] []
      with ⟨cl', net', res⟩
    rw [hC] at hE
    simp at hE
    rw [hE]
  · intro xs hE
    unfold recordResource
    rcases hC : cl.executeKw net model "read" [JVal.arr [JVal.num id]] []
      with ⟨cl', net', res⟩
    rw [hC] at hE
    simp at hE
    rw [hE]
  · intro x xs hE hx
    unfold recordResource
    rcases hC : cl.executeKw net model "read" [JVal.arr [JVal.num id]] []
      with ⟨cl', net', res⟩
    rw [hC] at hE
    simp at hE
    subst hE
    rcases x with _ | b | n | s | ys | fs
    · exact absurd rfl hx
    · rfl
    · rfl
    · rfl
    · rfl
    · rfl

/-- C7 witness: a lookup of a nonexistent id returns the empty structure,
and a read returning one non-null record returns that record. -/
theorem c7_witness :
    ((recordResource (mkOdooClient cfg₀) netRec "res.partner" 999999).2.2
      = Except.ok (JVal.obj [])) ∧
    ((recordResource (mkOdooClient cfg₀) netFirst "res.partner" 7).2.2
      = Except.ok (JVal.num 42)) :=
  ⟨(c7_record_absent_is_empty (mkOdooClient cfg₀) netRec "res.partner" 999999).1
      rfl,
   (c7_record_absent_is_empty (mkOdooClient cfg₀) netFirst "res.partner" 7).2.2
      (JVal.num 42) [] rfl (fun h => JVal.noConfusion h)⟩

/-- C8: for a `search(model, domain)` address whose domain segment decodes
and parses to `D`, the handler is exactly the client primitive
`executeKw(model, "search_read", [D])` — same final client, same network
state, same result (success and error alike, errors wrapped) — and, when the
session identity is already established, the one envelope it sends is the
`execute_kw` envelope whose positional-argument slot is precisely `[D]`,
forwarded unchanged. When decoding/parsing fails, the handler errors without
sending anything. -/
theorem c8_search_forwards_domain (jparse : String → Except Unit JVal)
    (urlDecode : String → String) (cl : OdooClient) (net : NetState)
    (m ds : String) :
    (∀ D, jparse (urlDecode ds) = Except.ok D →
      ((searchResource jparse urlDecode cl net m ds).1
          = (cl.executeKw net m "search_read" [D] []).1 ∧
       (searchResource jparse urlDecode cl net m ds).2.1
          = (cl.executeKw net m "search_read" [D] []).2.1 ∧
       (∀ v, (cl.executeKw net m "search_read" [D] []).2.2 = Except.ok v →
         (searchResource jparse urlDecode cl net m ds).2.2 = Except.ok v) ∧
       (∀ e, (cl.executeKw net m "search_read" [D] []).2.2 = Except.error e →
         (searchResource jparse urlDecode cl net m ds).2.2
            = Except.error (HandlerError.rpc e)) ∧
       (isSet cl.uid = true →
         (cl.executeKw net m "search_read" [D] []).2.1.sent =
           net.sent ++ [⟨"object", "execute_kw",
             [JVal.str cl.cfg.db, cl.uid, JVal.str cl.cfg.password,
              JVal.str m, JVal.str "search_read", JVal.arr [D],
              JVal.obj []]⟩]))) ∧
    (jparse (urlDecode ds) = Except.error () →
      searchResource jparse urlDecode cl net m ds
        = (cl, net, Except.error HandlerError.parseFailure)) := by
  constructor
  · intro D hD
    refine ⟨?_, ?_, ?_, ?_, fun hset => (executeKw_isSet cl net m "search_read"
      [D] [] hset).2⟩
    · unfold searchResource
      rcases hC : cl.executeKw net m "search_read" [D] [] with ⟨cl', net', res⟩
      rcases res with e | v <;> simp [hD, hC]
    · unfold searchResource
      rcases hC : cl.executeKw net m "search_read" [D] [] with ⟨cl', net', res⟩
      rcases res with e | v <;> simp [hD, hC]
    · intro v hv
      unfold searchResource
      rcases hC : cl.executeKw net m "search_read" [D] [] with ⟨cl', net', res⟩
      rw [hC] at hv
      simp at hv
      subst hv
      simp [hD, hC]
    · intro e he
      unfold searchResource
      rcases hC : cl.executeKw net m "search_read" [D] [] with ⟨cl', net', res⟩
      rw [hC] at he
      simp at he
      subst he
      simp [hD, hC]
  · intro hD
    unfold searchResource
    rw [hD]

/-- C8 witness: the concrete domain is forwarded unchanged as the sole
positional argument of one `search_read` envelope, and an undecodable
segment errors without any envelope. -/
theorem c8_witness :
    (searchResource jparse₂ urld₀ clS netS "res.partner" "dom").1
      = (clS.executeKw netS "res.partner" "search_read" [D₀] []).1 ∧
    (clS.executeKw netS "res.partner" "search_read" [D₀] []).2.1.sent
      = netS.sent ++ [⟨"object", "execute_kw",
          [JVal.str clS.cfg.db, clS.uid, JVal.str clS.cfg.password,
           JVal.str "res.partner", JVal.str "search_read", JVal.arr [D₀],
           JVal.obj []]⟩] ∧
    searchResource jparse₂ urld₀ clS netS "res.partner" "bad"
      = (clS, netS, Except.error HandlerError.parseFailure) := by
  obtain ⟨hfwd, herr⟩ :=
    c8_search_forwards_domain jparse₂ urld₀ clS netS "res.partner" "dom"
  obtain ⟨h1, _, _, _, h5⟩ := hfwd D₀ rfl
  exact ⟨h1, h5 rfl,
    (c8_search_forwards_domain jparse₂ urld₀ clS netS "res.partner" "bad").2 rfl⟩

/-- C9: `getOdooClient` hands every tool invocation a brand-new client whose
session identity is unset, so every tool invocation beginning with at least
one client call sends its own login envelope first — whatever identity an
earlier invocation cached, a later invocation never reuses it (the quantifier
over `net` covers invocations run after arbitrary previous traffic). The
resource handlers, by contrast, run on the agent's existing client: with an
established identity they are passed through unchanged and send no login
envelope. -/
theorem c9_fresh_client_per_tool_invocation (p : CtxProps) :
    (getOdooClient p).uid = JVal.null ∧
    (∀ (net : NetState) (c : CallSpec) (cs : List CallSpec), ∃ rest,
      (runToolInvocation p net (c :: cs)).2.sent =
        net.sent ++ loginEnvelope (getOdooClient p).cfg :: rest) ∧
    (∀ (cl : OdooClient) (net : NetState) (m : String) (id : Int),
      isSet cl.uid = true →
      ((recordResource cl net m id).1 = cl ∧
       loginCount ((recordResource cl net m id).2.1.sent)
          = loginCount net.sent)) := by
  refine ⟨rfl, ?_, ?_⟩
  · intro net c cs
    unfold runToolInvocation
    rw [runCalls_cons]
    obtain ⟨d1, hs1, _⟩ := executeKw_null_sent (getOdooClient p) net
      c.model c.method c.args c.kwargs rfl
    obtain ⟨d2, hs2⟩ := runCalls_sent_mono cs
      ((getOdooClient p).executeKw net c.model c.method c.args c.kwargs).1
      ((getOdooClient p).executeKw net c.model c.method c.args c.kwargs).2.1
    refine ⟨d1 ++ d2, ?_⟩
    rw [hs2, hs1]
    simp
  · intro cl net m id hset
    obtain ⟨h1, h2⟩ := recordResource_state cl net m id
    obtain ⟨hA, _⟩ := executeKw_isSet cl net m "read" [JVal.arr [JVal.num id]] [] hset
    refine ⟨by rw [h1, hA], ?_⟩
    rw [h2]
    exact executeKw_isSet_loginCount cl net m "read" [JVal.arr [JVal.num id]] [] hset

/-- C9 witness: a concrete tool invocation starts with a login envelope, and
a resource handler on an authenticated client sends none. -/
theorem c9_witness :
    (getOdooClient pGate).uid = JVal.null ∧
    (∃ rest, (runToolInvocation pGate netS
        [⟨"product.product", "search_read", [], []⟩]).2.sent
      = netS.sent ++ loginEnvelope (getOdooClient pGate).cfg :: rest) ∧
    ((recordResource clS netRec "res.partner" 5).1 = clS ∧
     loginCount ((recordResource clS netRec "res.partner" 5).2.1.sent)
        = loginCount netRec.sent) := by
  obtain ⟨h1, h2, h3⟩ := c9_fresh_client_per_tool_invocation pGate
  exact ⟨h1, h2 netS ⟨"product.product", "search_read", [], []⟩ [],
    h3 clS netRec "res.partner" 5 rfl⟩

/-- C10: a present but unparseable timeout string makes
`parseInt(... , 10)` yield NaN (`none`); the constructor spread
`\x7b timeout: 60000, ...cfg \x7d` lets that NaN override the 60000 default, so
the value handed to the transport is NaN, not 60000. -/
theorem c10_unparseable_timeout_is_nan (p : CtxProps)
    (h1 : ¬(p.odooTimeout = "")) (h2 : jsParseInt p.odooTimeout = none) :
    (getConfigFromContext p).odooConfig.timeout = some none ∧
    transportTimeout (mkOdooClient (getConfigFromContext p).odooConfig) = none ∧
    ¬((none : JSNum) = some 60000) := by
  have hs : strOr p.odooTimeout "60000" = p.odooTimeout := by
    simp [strOr, h1]
  refine ⟨?_, ?_, by decide⟩
  · show some (jsParseInt (strOr p.odooTimeout "60000")) = some none
    rw [hs, h2]
  · show ((getConfigFromContext p).odooConfig.timeout).getD (some 60000) = none
    rw [show (getConfigFromContext p).odooConfig.timeout
        = some (jsParseInt (strOr p.odooTimeout "60000")) from rfl, hs, h2]
    rfl

/-- C10 witness: `odoo-timeout: abc` yields a NaN transport timeout. -/
theorem c10_witness :
    (getConfigFromContext pNaN).odooConfig.timeout = some none ∧
    transportTimeout (mkOdooClient (getConfigFromContext pNaN).odooConfig) = none ∧
    ¬((none : JSNum) = some 60000) :=
  c10_unparseable_timeout_is_nan pNaN (by decide) (by rfl)
